import Mathlib

/-!
Shallow embedding of `src/libcamera/CameraHardware.cpp` (Android camera HAL
for linaro x86 hardware).  Member fields of the `CameraHardware` class become
fields of `CamState`; results of the external `V4L2Camera` driver object (the
Device Session) are supplied by an `Env` record; each operation returns its
`status_t`, the successor state, and a trace of `Action`s recording, in order,
every driver call and every client callback it performs.
-/

namespace CameraHW

/-! ### Platform constants

`status_t` values from the Android `utils/Errors.h` header: `NO_ERROR = 0`,
`INVALID_OPERATION = -ENOSYS = -38`.  The literal `-1` returned by
`setParameters`, `startPreview` and `pictureThread` is what the spec names
`UnsupportedFormat` / `DeviceUnavailable` / `CaptureFailed`. -/

def NO_ERROR : Int := 0

def INVALID_OPERATION : Int := -38

def UNSUPPORTED_FORMAT : Int := -1

def CAPTURE_FAILED : Int := -1

/-- Message-type bits from the platform camera header (`CAMERA_MSG_*`). -/
def CAMERA_MSG_SHUTTER : Nat := 2

def CAMERA_MSG_FOCUS : Nat := 4

def CAMERA_MSG_PREVIEW_FRAME : Nat := 16

def CAMERA_MSG_VIDEO_FRAME : Nat := 32

def CAMERA_MSG_COMPRESSED_IMAGE : Nat := 256

/-- `#define PIXEL_FORMAT V4L2_PIX_FMT_YUYV` — the fourcc code for YUYV. -/
def V4L2_PIX_FMT_YUYV : Nat := 0x56595559

/-- `#define MIN_WIDTH 320` -/
def MIN_WIDTH : Nat := 320

/-- `#define MIN_HEIGHT 240` -/
def MIN_HEIGHT : Nat := 240

/-- The constant `supportedFpsRanges` string of `CameraHardware.cpp`, as the
list of (min,max) pairs it encodes. -/
def supportedFpsRanges : List (Nat × Nat) :=
  [(8000, 8000), (8000, 10000), (10000, 10000), (8000, 15000), (15000, 15000),
   (8000, 20000), (20000, 20000), (24000, 24000), (25000, 25000),
   (8000, 30000), (30000, 30000)]

/-! ### The parameter container

`CameraParameters` is an external key-value container; the keys this file
reads or writes become fields.  `supportedPreviewFpsRange = none` models the
`KEY_SUPPORTED_PREVIEW_FPS_RANGE` key being absent. -/

structure CameraParameters where
  previewWidth : Nat
  previewHeight : Nat
  previewFrameRate : Nat
  previewFormat : String
  pictureWidth : Nat
  pictureHeight : Nat
  pictureFormat : String
  supportedPreviewSizes : String
  supportedPictureSizes : String
  videoFrameFormat : String
  supportedPreviewFpsRange : Option (List (Nat × Nat))
deriving Repr, DecidableEq

/-- A freshly constructed `CameraParameters` object (no keys set). -/
def emptyParams : CameraParameters where
  previewWidth := 0
  previewHeight := 0
  previewFrameRate := 0
  previewFormat := ""
  pictureWidth := 0
  pictureHeight := 0
  pictureFormat := ""
  supportedPreviewSizes := ""
  supportedPictureSizes := ""
  videoFrameFormat := ""
  supportedPreviewFpsRange := none

/-! ### Environment: results of the external V4L2 driver -/

/-- Results the external `V4L2Camera` driver and the system clock would
deliver: the return of `camera.Open` for a given node/size/format, the
returns of `camera.Init` and `camera.StartStreaming`, the size of the
payload `camera.GrabJpegFrame` yields, and the monotonic clock value. -/
structure Env where
  openRet : String → Nat → Nat → Nat → Int
  initRet : Int
  startStreamingRet : Int
  jpegSize : Nat
  now : Nat

/-! ### Action traces -/

/-- Calls into the `V4L2Camera` driver object. -/
inductive DevCall where
  | openDev (node : String) (w h fmt : Nat)
  | initDev
  | startStreaming
  | grabPreviewFrame
  | grabJpegFrame
  | stopStreaming
  | uninit
  | closeDev
deriving Repr, DecidableEq

/-- Client callbacks: `mNotifyFn`, `mDataFn`, `mTimestampFn`.  Buffers are
identified by their byte size. -/
inductive CallbackEvent where
  | notify (msgType : Nat) (ext1 ext2 : Int)
  | data (msgType : Nat) (bufSize : Nat)
  | dataTimestamp (ts : Nat) (msgType : Nat) (bufSize : Nat)
deriving Repr, DecidableEq

/-- One step of observable behaviour.  Besides driver calls and callbacks,
`stopPreview`'s flag write, thread join (`requestExitAndWait`) and handle
clear, and the `yuyv422_to_yuv420sp` conversion, are recorded so that
ordering claims about them can be stated. -/
inductive Action where
  | dev (c : DevCall)
  | cb (e : CallbackEvent)
  | setStoppedFlag
  | joinLoop
  | clearLoopHandle
  | convert (w h : Nat)
deriving Repr, DecidableEq

/-- Is the action a call into the driver (device teardown/setup/grab)? -/
def Action.isDev : Action → Bool
  | Action.dev _ => true
  | _ => false

/-! ### Controller state

Fields of the `CameraHardware` class the operations below read or write.
The callback function pointers (`mNotifyFn`, `mDataFn`, `mTimestampFn`,
`mUser`) are modelled by the emission of `Action.cb` events; the frame
counters `nQueued`/`nDequeued`, `mCurrentPreviewFrame` and `mRawHeap` are
never used by the translated operations and are omitted.  Memory heaps and
`MemoryBase` buffers are identified with their byte size, `none` standing
for a null strong pointer. -/
structure CamState where
  mParameters : CameraParameters
  mHeap : Option Nat
  mBuffer : Option Nat
  mRecordHeap : Option Nat
  mRecordBuffer : Option Nat
  mPreviewFrameSize : Nat
  mRecordRunning : Bool
  previewStopped : Bool
  mPreviewThread : Bool
  mMsgEnabled : Nat
deriving Repr, DecidableEq

/-! ### Operations -/

/-- `CameraHardware::setParameters`: rejects any preview format other than
"yuv422sp" and any picture format other than "jpeg" with `-1`; otherwise
installs `params`, re-sets the sizes read back from `params` (no-ops),
assigns `params` a second time, and publishes the fixed fps-range list. -/
def setParameters (s : CamState) (params : CameraParameters) : Int × CamState :=
  if params.previewFormat ≠ "yuv422sp" then (UNSUPPORTED_FORMAT, s)
  else if params.pictureFormat ≠ "jpeg" then (UNSUPPORTED_FORMAT, s)
  else
    -- mParameters = params;
    let m1 := params
    -- params.getPictureSize(&w,&h); mParameters.setPictureSize(w,h);
    let m2 := { m1 with pictureWidth := params.pictureWidth,
                        pictureHeight := params.pictureHeight }
    -- params.getPreviewSize(&w,&h); mParameters.setPreviewSize(w,h);
    -- (this value of mParameters is dead: it is overwritten below)
    let _m3 := { m2 with previewWidth := params.previewWidth,
                         previewHeight := params.previewHeight }
    -- framerate = params.getPreviewFrameRate();  (only logged)
    -- mParameters = params;   (second wholesale assignment)
    let m4 := params
    -- mParameters.setPreviewSize(w,h);  (w,h still params' preview size)
    let m5 := { m4 with previewWidth := params.previewWidth,
                        previewHeight := params.previewHeight }
    -- mParameters.set(KEY_SUPPORTED_PREVIEW_FPS_RANGE, supportedFpsRanges);
    let m6 := { m5 with supportedPreviewFpsRange := some supportedFpsRanges }
    (NO_ERROR, { s with mParameters := m6 })

/-- `CameraHardware::getParameters`: a snapshot copy of `mParameters`. -/
def getParameters (s : CamState) : CameraParameters :=
  s.mParameters

/-- The parameter object built by `initDefaultParameters` before it calls
`setParameters`.  `KEY_SUPPORTED_PREVIEW_SIZES` is set twice in the source
("320x240" then "640x480"); the second write wins. -/
def defaultParams : CameraParameters :=
  { emptyParams with
      previewWidth := MIN_WIDTH
      previewHeight := MIN_HEIGHT
      previewFrameRate := 30
      previewFormat := "yuv422sp"
      supportedPreviewSizes := "640x480"
      videoFrameFormat := "yuv420sp"
      pictureWidth := MIN_WIDTH
      pictureHeight := MIN_HEIGHT
      pictureFormat := "jpeg"
      supportedPictureSizes := "320x240" }

/-- The `CameraHardware` constructor: zero/null/false member initialisers,
then `initDefaultParameters` (which calls `setParameters defaultParams`). -/
def mkCameraHardware : CamState :=
  let s0 : CamState :=
    { mParameters := emptyParams
      mHeap := none
      mBuffer := none
      mRecordHeap := none
      mRecordBuffer := none
      mPreviewFrameSize := 0
      mRecordRunning := false
      previewStopped := true
      mPreviewThread := false
      mMsgEnabled := 0 }
  (setParameters s0 defaultParams).2

/-- `CameraHardware::enableMsgType`: `mMsgEnabled |= msgType`. -/
def enableMsgType (s : CamState) (msgType : Nat) : CamState :=
  { s with mMsgEnabled := s.mMsgEnabled ||| msgType }

/-- `CameraHardware::disableMsgType`: `mMsgEnabled &= ~msgType`; on
nonnegative bit patterns clearing the `msgType` bits equals subtracting
the common bits. -/
def disableMsgType (s : CamState) (msgType : Nat) : CamState :=
  { s with mMsgEnabled := s.mMsgEnabled - (s.mMsgEnabled &&& msgType) }

/-- `CameraHardware::msgTypeEnabled`: `(mMsgEnabled & msgType)` as a truth
value. -/
def msgTypeEnabled (s : CamState) (msgType : Nat) : Bool :=
  s.mMsgEnabled &&& msgType != 0

/-- `sprintf(devnode, "/dev/video%d", i)`. -/
def devnode (i : Nat) : String :=
  "/dev/video" ++ toString i

/-- The probe loop of `startPreview`/`pictureThread` over a list of node
indices: try `camera.Open` on each node in order, stop at the first
nonnegative return.  Yields the bound node (if any) and the trace of open
attempts. -/
def probeGo (env : Env) (w h fmt : Nat) : List Nat → Option String × List Action
  | [] => (none, [])
  | i :: rest =>
    let node := devnode i
    let act := Action.dev (DevCall.openDev node w h fmt)
    if 0 ≤ env.openRet node w h fmt then (some node, [act])
    else
      let r := probeGo env w h fmt rest
      (r.1, act :: r.2)

/-- `for (i = 0; i < 10; i++) { ...; ret = camera.Open(devnode, w, h, fmt);
if (ret >= 0) break; }`. -/
def probe (env : Env) (w h fmt : Nat) : Option String × List Action :=
  probeGo env w h fmt (List.range 10)

/-- `CameraHardware::startPreview`. -/
def startPreview (env : Env) (s : CamState) : Int × CamState × List Action :=
  if s.mPreviewThread then
    -- already running
    (INVALID_OPERATION, s, [])
  else
    let w := s.mParameters.previewWidth
    let h := s.mParameters.previewHeight
    let pr := probe env w h V4L2_PIX_FMT_YUYV
    match pr.1 with
    | none => (-1, s, pr.2)
    | some _ =>
      let pfs := w * h * 2
      -- mHeap = new MemoryHeapBase(pfs); mBuffer = new MemoryBase(mHeap, 0, pfs);
      let s1 := { s with mPreviewFrameSize := pfs, mHeap := some pfs,
                         mBuffer := some pfs }
      if env.initRet ≠ 0 then
        (env.initRet, s1,
         pr.2 ++ [Action.dev DevCall.initDev, Action.dev DevCall.closeDev])
      else if env.startStreamingRet ≠ 0 then
        (env.startStreamingRet, s1,
         pr.2 ++ [Action.dev DevCall.initDev, Action.dev DevCall.startStreaming,
                  Action.dev DevCall.uninit, Action.dev DevCall.closeDev])
      else
        (NO_ERROR,
         { s1 with previewStopped := false, mPreviewThread := true },
         pr.2 ++ [Action.dev DevCall.initDev, Action.dev DevCall.startStreaming])

/-- `CameraHardware::stopPreview`: set `previewStopped`, copy and join the
thread handle if held, tear the driver down (`Uninit`, `StopStreaming`,
`Close` — in that source order) if the handle is held, clear the handle. -/
def stopPreview (s : CamState) : CamState × List Action :=
  let joinTr := if s.mPreviewThread then [Action.joinLoop] else []
  let devTr :=
    if s.mPreviewThread then
      [Action.dev DevCall.uninit, Action.dev DevCall.stopStreaming,
       Action.dev DevCall.closeDev]
    else []
  ({ s with previewStopped := true, mPreviewThread := false },
   Action.setStoppedFlag :: (joinTr ++ devTr ++ [Action.clearLoopHandle]))

/-- `CameraHardware::previewEnabled`: `mPreviewThread != 0`. -/
def previewEnabled (s : CamState) : Bool :=
  s.mPreviewThread

/-- One iteration of `CameraHardware::previewThread`. -/
def previewThread (env : Env) (s : CamState) : Int × List Action :=
  let w := s.mParameters.previewWidth
  let h := s.mParameters.previewHeight
  if s.previewStopped then (NO_ERROR, [])
  else
    let grabTr := [Action.dev DevCall.grabPreviewFrame]
    if msgTypeEnabled s CAMERA_MSG_PREVIEW_FRAME ||
        msgTypeEnabled s CAMERA_MSG_VIDEO_FRAME then
      let videoTr :=
        if msgTypeEnabled s CAMERA_MSG_VIDEO_FRAME && s.mRecordRunning then
          [Action.convert w h,
           Action.cb (CallbackEvent.dataTimestamp env.now CAMERA_MSG_VIDEO_FRAME
             (s.mRecordBuffer.getD 0))]
        else []
      (NO_ERROR,
       grabTr ++ videoTr ++
         [Action.cb (CallbackEvent.data CAMERA_MSG_PREVIEW_FRAME
           (s.mBuffer.getD 0))])
    else (NO_ERROR, grabTr)

/-- `CameraHardware::startRecording`: unconditionally allocates the record
heap and buffer at `mPreviewFrameSize*3/4` and raises the recording flag. -/
def startRecording (s : CamState) : Int × CamState :=
  (NO_ERROR,
   { s with mRecordHeap := some (s.mPreviewFrameSize * 3 / 4)
            mRecordBuffer := some (s.mPreviewFrameSize * 3 / 4)
            mRecordRunning := true })

/-- `CameraHardware::stopRecording`: clears the flag only. -/
def stopRecording (s : CamState) : CamState :=
  { s with mRecordRunning := false }

/-- `CameraHardware::recordingEnabled`. -/
def recordingEnabled (s : CamState) : Bool :=
  s.mRecordRunning

/-- `CameraHardware::pictureThread`.  Note the source reads the picture size
into `width`/`height` and then immediately overwrites both with the preview
size, so the probe uses the preview resolution; the `Init` and
`StartStreaming` returns are ignored. -/
def pictureThread (env : Env) (s : CamState) : Int × List Action :=
  let shutterTr :=
    if msgTypeEnabled s CAMERA_MSG_SHUTTER then
      [Action.cb (CallbackEvent.notify CAMERA_MSG_SHUTTER 0 0)]
    else []
  -- mParameters.getPictureSize(&width, &height);
  -- mParameters.getPreviewSize(&width, &height);   <- overwrites both
  let w := s.mParameters.previewWidth
  let h := s.mParameters.previewHeight
  let pr := probe env w h V4L2_PIX_FMT_YUYV
  match pr.1 with
  | none => (CAPTURE_FAILED, shutterTr ++ pr.2)
  | some _ =>
    let jpegTr :=
      if msgTypeEnabled s CAMERA_MSG_COMPRESSED_IMAGE then
        [Action.dev DevCall.grabJpegFrame,
         Action.cb (CallbackEvent.data CAMERA_MSG_COMPRESSED_IMAGE env.jpegSize)]
      else []
    (NO_ERROR,
     shutterTr ++ pr.2 ++
       [Action.dev DevCall.initDev, Action.dev DevCall.startStreaming] ++
       jpegTr ++
       [Action.dev DevCall.uninit, Action.dev DevCall.stopStreaming,
        Action.dev DevCall.closeDev])

/-- `CameraHardware::takePicture`: `stopPreview(); pictureThread();
return NO_ERROR;` — the status `pictureThread` returns is discarded. -/
def takePicture (env : Env) (s : CamState) : Int × CamState × List Action :=
  let p1 := stopPreview s
  let p2 := pictureThread env p1.1
  (NO_ERROR, p1.1, p1.2 ++ p2.2)

/-- Is the action a `camera.Open` attempt? -/
def Action.isOpen : Action → Bool
  | Action.dev (DevCall.openDev _ _ _ _) => true
  | _ => false

/-! ### Concrete environments and states for witnesses -/

/-- A driver environment where every device node opens and every setup step
succeeds. -/
def envOK : Env where
  openRet := fun _ _ _ _ => 0
  initRet := 0
  startStreamingRet := 0
  jpegSize := 4096
  now := 777

/-- A driver environment where no candidate device node can be opened. -/
def envNoDevice : Env where
  openRet := fun _ _ _ _ => -1
  initRet := 0
  startStreamingRet := 0
  jpegSize := 4096
  now := 777

/-- The controller state after a successful `startPreview` on a freshly
constructed controller. -/
def sRunning : CamState :=
  (startPreview envOK mkCameraHardware).2.1

/-- `sRunning` with preview-frame events enabled. -/
def sPrev : CamState :=
  enableMsgType sRunning CAMERA_MSG_PREVIEW_FRAME

/-- `sRunning` with preview-frame and video-frame events enabled. -/
def sVid : CamState :=
  enableMsgType sRunning (CAMERA_MSG_PREVIEW_FRAME ||| CAMERA_MSG_VIDEO_FRAME)

/-- A parameter set whose picture size (640x480) differs from its preview
size (320x240). -/
def paramsBigPicture : CameraParameters :=
  { defaultParams with pictureWidth := 640, pictureHeight := 480 }

/-- A controller configured with `paramsBigPicture`, shutter and
compressed-image events enabled. -/
def sBigPicture : CamState :=
  enableMsgType (setParameters mkCameraHardware paramsBigPicture).2
    (CAMERA_MSG_SHUTTER ||| CAMERA_MSG_COMPRESSED_IMAGE)

/-! ### Theorems -/

/-- Claim C6: `setParameters` with a preview format other than "yuv422sp" or
a picture format other than "jpeg" fails with `UnsupportedFormat` (-1) and
leaves the stored configuration unchanged, so `getParameters` afterwards
returns the prior configuration. -/
theorem setParameters_rejects_bad_format (s : CamState) (p : CameraParameters)
    (h : p.previewFormat ≠ "yuv422sp" ∨ p.pictureFormat ≠ "jpeg") :
    setParameters s p = (UNSUPPORTED_FORMAT, s) ∧
    getParameters (setParameters s p).2 = getParameters s := by
  have hres : setParameters s p = (UNSUPPORTED_FORMAT, s) := by
    rcases h with h | h
    · simp [setParameters, h]
    · by_cases h2 : p.previewFormat = "yuv422sp" <;>
        simp [setParameters, h, h2]
  exact ⟨hres, by rw [hres]⟩

/-- Witness for claim C6 at a concrete bad-format parameter set. -/
theorem setParameters_rejects_bad_format_witness :
    setParameters mkCameraHardware
        { defaultParams with previewFormat := "yuv420sp" } =
      (UNSUPPORTED_FORMAT, mkCameraHardware) :=
  (setParameters_rejects_bad_format mkCameraHardware
    { defaultParams with previewFormat := "yuv420sp" }
    (Or.inl (by decide))).1

/-- Claim C7: for any configuration with the supported formats, a successful
`setParameters` followed by `getParameters` returns the requested preview
size, picture size and frame rate, and the returned configuration carries
the fixed supported-frame-rate-range list of eleven (min,max) pairs. -/
theorem setParameters_roundTrip (s : CamState) (p : CameraParameters)
    (h1 : p.previewFormat = "yuv422sp") (h2 : p.pictureFormat = "jpeg") :
    (setParameters s p).1 = NO_ERROR ∧
    (getParameters (setParameters s p).2).previewWidth = p.previewWidth ∧
    (getParameters (setParameters s p).2).previewHeight = p.previewHeight ∧
    (getParameters (setParameters s p).2).pictureWidth = p.pictureWidth ∧
    (getParameters (setParameters s p).2).pictureHeight = p.pictureHeight ∧
    (getParameters (setParameters s p).2).previewFrameRate = p.previewFrameRate ∧
    (getParameters (setParameters s p).2).supportedPreviewFpsRange =
      some supportedFpsRanges ∧
    supportedFpsRanges.length = 11 := by
  simp [setParameters, getParameters, h1, h2, supportedFpsRanges]

/-- Witness for claim C7 at a concrete valid parameter set. -/
theorem setParameters_roundTrip_witness :
    (setParameters mkCameraHardware defaultParams).1 = NO_ERROR ∧
    (getParameters (setParameters mkCameraHardware defaultParams).2).previewWidth =
      defaultParams.previewWidth ∧
    (getParameters (setParameters mkCameraHardware defaultParams).2).previewHeight =
      defaultParams.previewHeight ∧
    (getParameters (setParameters mkCameraHardware defaultParams).2).pictureWidth =
      defaultParams.pictureWidth ∧
    (getParameters (setParameters mkCameraHardware defaultParams).2).pictureHeight =
      defaultParams.pictureHeight ∧
    (getParameters (setParameters mkCameraHardware defaultParams).2).previewFrameRate =
      defaultParams.previewFrameRate ∧
    (getParameters (setParameters mkCameraHardware defaultParams).2).supportedPreviewFpsRange =
      some supportedFpsRanges ∧
    supportedFpsRanges.length = 11 :=
  setParameters_roundTrip mkCameraHardware defaultParams (by decide) (by decide)

/-- Claim C9: `stopPreview` is idempotent — called with no loop handle held
it performs no device-teardown call (it only sets the stopped flag and
clears the already-clear handle), and a second `stopPreview` right after a
first one performs no driver call at all. -/
theorem stopPreview_idempotent (s : CamState) :
    (s.mPreviewThread = false →
      stopPreview s =
        ({ s with previewStopped := true, mPreviewThread := false },
         [Action.setStoppedFlag, Action.clearLoopHandle])) ∧
    (stopPreview (stopPreview s).1).2.filter Action.isDev = [] := by
  constructor
  · intro h
    simp [stopPreview, h]
  · simp [stopPreview, Action.isDev]

/-- Witness for claim C9: a fresh controller (preview never started). -/
theorem stopPreview_idempotent_witness :
    stopPreview mkCameraHardware =
      ({ mkCameraHardware with previewStopped := true, mPreviewThread := false },
       [Action.setStoppedFlag, Action.clearLoopHandle]) :=
  (stopPreview_idempotent mkCameraHardware).1 (by decide)

/-- `startPreview` never touches the record heap or record buffer. -/
theorem startPreview_preserves_record (env : Env) (s : CamState) :
    (startPreview env s).2.1.mRecordHeap = s.mRecordHeap ∧
    (startPreview env s).2.1.mRecordBuffer = s.mRecordBuffer := by
  by_cases hT : s.mPreviewThread = true
  · simp [startPreview, hT]
  · rcases hpr : (probe env s.mParameters.previewWidth s.mParameters.previewHeight
        V4L2_PIX_FMT_YUYV).1 with _ | n
    · simp [startPreview, hT, hpr]
    · by_cases hi : env.initRet = 0
      · by_cases hst : env.startStreamingRet = 0
        · simp [startPreview, hT, hpr, hi, hst]
        · simp [startPreview, hT, hpr, hi, hst]
      · simp [startPreview, hT, hpr, hi]

/-- Claim C10: `startRecording` on a controller whose preview frame size is
still zero (preview never successfully started) returns success, raises the
recording flag, and allocates a zero-sized record heap and buffer
(`0*3/4 = 0`); a later `startPreview` does not re-size that record buffer. -/
theorem startRecording_without_preview (env : Env) (s : CamState)
    (h0 : s.mPreviewFrameSize = 0) :
    (startRecording s).1 = NO_ERROR ∧
    (startRecording s).2.mRecordRunning = true ∧
    (startRecording s).2.mRecordHeap = some 0 ∧
    (startRecording s).2.mRecordBuffer = some 0 ∧
    (startPreview env (startRecording s).2).2.1.mRecordHeap = some 0 ∧
    (startPreview env (startRecording s).2).2.1.mRecordBuffer = some 0 := by
  have hrec : (startRecording s).2.mRecordHeap = some 0 ∧
      (startRecording s).2.mRecordBuffer = some 0 := by
    simp [startRecording, h0]
  have hpres := startPreview_preserves_record env (startRecording s).2
  refine ⟨rfl, rfl, hrec.1, hrec.2, ?_, ?_⟩
  · rw [hpres.1, hrec.1]
  · rw [hpres.2, hrec.2]

/-- Claim C1 counterexample: in an environment where no candidate device
node can be opened, `takePicture` on a fresh controller still returns
`NO_ERROR` (success), not the `CaptureFailed` status the claim requires. -/
theorem takePicture_no_device_cex :
    (probe envNoDevice mkCameraHardware.mParameters.previewWidth
        mkCameraHardware.mParameters.previewHeight V4L2_PIX_FMT_YUYV).1 = none ∧
    (takePicture envNoDevice mkCameraHardware).1 = NO_ERROR ∧
    NO_ERROR ≠ CAPTURE_FAILED := by
  refine ⟨by decide, rfl, by decide⟩

/-- Claim C1 (amended): `takePicture` always returns success (`NO_ERROR`).
The inner still-capture routine `pictureThread` does return `CaptureFailed`
(-1) exactly when no candidate device node can be opened, but `takePicture`
discards that status. -/
theorem takePicture_status (env : Env) (s : CamState) :
    (takePicture env s).1 = NO_ERROR ∧
    ((pictureThread env (stopPreview s).1).1 = CAPTURE_FAILED ↔
      (probe env s.mParameters.previewWidth s.mParameters.previewHeight
        V4L2_PIX_FMT_YUYV).1 = none) := by
  constructor
  · rfl
  · rcases hpr : (probe env s.mParameters.previewWidth
        s.mParameters.previewHeight V4L2_PIX_FMT_YUYV).1 with _ | n
    · simp [pictureThread, stopPreview, msgTypeEnabled, hpr, CAPTURE_FAILED]
    · simp [pictureThread, stopPreview, msgTypeEnabled, hpr, CAPTURE_FAILED,
        NO_ERROR]

/-- Claim C2 counterexample: on a controller with a live preview loop, the
teardown part of `stopPreview`'s trace is `Uninit`, `StopStreaming`,
`Close` — not the reverse-acquisition order `StopStreaming`, `Uninit`,
`Close` the claim requires. -/
theorem stopPreview_order_cex :
    sRunning.mPreviewThread = true ∧
    (stopPreview sRunning).2 =
      [Action.setStoppedFlag, Action.joinLoop, Action.dev DevCall.uninit,
       Action.dev DevCall.stopStreaming, Action.dev DevCall.closeDev,
       Action.clearLoopHandle] ∧
    (stopPreview sRunning).2 ≠
      [Action.setStoppedFlag, Action.joinLoop, Action.dev DevCall.stopStreaming,
       Action.dev DevCall.uninit, Action.dev DevCall.closeDev,
       Action.clearLoopHandle] := by
  refine ⟨by decide, by decide, by decide⟩

/-- Claim C2 (amended): `stopPreview` with a live preview loop sets the
stopped flag first, then joins the loop, then calls into the driver in the
order uninitialize, stop streaming, close (uninitialize precedes stop
streaming, so the teardown is not in exact reverse acquisition order), and
finally clears the loop handle. -/
theorem stopPreview_sequence (s : CamState) (h : s.mPreviewThread = true) :
    stopPreview s =
      ({ s with previewStopped := true, mPreviewThread := false },
       [Action.setStoppedFlag, Action.joinLoop, Action.dev DevCall.uninit,
        Action.dev DevCall.stopStreaming, Action.dev DevCall.closeDev,
        Action.clearLoopHandle]) := by
  simp [stopPreview, h]

/-- Witness for claim C2's amended theorem at the running controller. -/
theorem stopPreview_sequence_witness :
    stopPreview sRunning =
      ({ sRunning with previewStopped := true, mPreviewThread := false },
       [Action.setStoppedFlag, Action.joinLoop, Action.dev DevCall.uninit,
        Action.dev DevCall.stopStreaming, Action.dev DevCall.closeDev,
        Action.clearLoopHandle]) :=
  stopPreview_sequence sRunning (by decide)

/-- Witness for claim C10 at the freshly constructed controller (its
`mPreviewFrameSize` is zero) with the all-succeeding environment. -/
theorem startRecording_without_preview_witness :
    (startRecording mkCameraHardware).1 = NO_ERROR ∧
    (startRecording mkCameraHardware).2.mRecordRunning = true ∧
    (startRecording mkCameraHardware).2.mRecordHeap = some 0 ∧
    (startRecording mkCameraHardware).2.mRecordBuffer = some 0 ∧
    (startPreview envOK (startRecording mkCameraHardware).2).2.1.mRecordHeap =
      some 0 ∧
    (startPreview envOK (startRecording mkCameraHardware).2).2.1.mRecordBuffer =
      some 0 :=
  startRecording_without_preview envOK mkCameraHardware (by decide)

/-- Claim C8: `startPreview` with a loop handle already held returns
`AlreadyRunning` (`INVALID_OPERATION`) with an unchanged state and an empty
trace (no probing, no allocation, no frame-size change); a successful
`startPreview` allocates the preview heap and buffer at exactly
width*height*2 and records that as the preview frame size. -/
theorem startPreview_already_running (env : Env) (s : CamState) :
    (s.mPreviewThread = true →
      startPreview env s = (INVALID_OPERATION, s, [])) ∧
    (s.mPreviewThread = false → (startPreview env s).1 = NO_ERROR →
      (startPreview env s).2.1.mHeap =
        some (s.mParameters.previewWidth * s.mParameters.previewHeight * 2) ∧
      (startPreview env s).2.1.mBuffer =
        some (s.mParameters.previewWidth * s.mParameters.previewHeight * 2) ∧
      (startPreview env s).2.1.mPreviewFrameSize =
        s.mParameters.previewWidth * s.mParameters.previewHeight * 2) := by
  constructor
  · intro h
    simp [startPreview, h]
  · intro h hok
    rcases hpr : (probe env s.mParameters.previewWidth
        s.mParameters.previewHeight V4L2_PIX_FMT_YUYV).1 with _ | n
    · exfalso
      rw [startPreview] at hok
      simp [h, hpr, NO_ERROR] at hok
    · by_cases hi : env.initRet = 0
      · by_cases hst : env.startStreamingRet = 0
        · simp [startPreview, h, hpr, hi, hst]
        · exfalso
          rw [startPreview] at hok
          simp [h, hpr, hi, hst, NO_ERROR] at hok
      · exfalso
        rw [startPreview] at hok
        simp [h, hpr, hi, NO_ERROR] at hok

/-- Witness for claim C8: the second `startPreview` on a running controller
fails without side effects, and the first one allocated 320*240*2 = 153600
bytes. -/
theorem startPreview_already_running_witness :
    startPreview envOK sRunning = (INVALID_OPERATION, sRunning, []) ∧
    (startPreview envOK mkCameraHardware).2.1.mHeap = some 153600 :=
  ⟨(startPreview_already_running envOK sRunning).1 (by decide),
   ((startPreview_already_running envOK mkCameraHardware).2 (by decide)
      (by decide)).1.trans (by decide)⟩

/-- In a non-stopped iteration the preview-frame data callback fires iff
the preview-frame or video-frame event kind is enabled. -/
theorem previewThread_data_mem_iff (env : Env) (s : CamState)
    (h : s.previewStopped = false) :
    (∃ b, Action.cb (CallbackEvent.data CAMERA_MSG_PREVIEW_FRAME b) ∈
        (previewThread env s).2) ↔
      (msgTypeEnabled s CAMERA_MSG_PREVIEW_FRAME = true ∨
       msgTypeEnabled s CAMERA_MSG_VIDEO_FRAME = true) := by
  by_cases hp : msgTypeEnabled s CAMERA_MSG_PREVIEW_FRAME = true
  <;> by_cases hv : msgTypeEnabled s CAMERA_MSG_VIDEO_FRAME = true
  <;> by_cases hr : s.mRecordRunning = true
  <;> simp [previewThread, h, hp, hv, hr]

/-- With the video-frame kind disabled or recording inactive, no iteration
emits a timestamped callback. -/
theorem previewThread_no_video_event (env : Env) (s : CamState)
    (h : msgTypeEnabled s CAMERA_MSG_VIDEO_FRAME = false ∨
      s.mRecordRunning = false) :
    ∀ ts m b, Action.cb (CallbackEvent.dataTimestamp ts m b) ∉
      (previewThread env s).2 := by
  intro ts m b
  by_cases hstop : s.previewStopped = true
  · simp [previewThread, hstop]
  · by_cases hp : msgTypeEnabled s CAMERA_MSG_PREVIEW_FRAME = true
    <;> by_cases hv : msgTypeEnabled s CAMERA_MSG_VIDEO_FRAME = true
    <;> by_cases hr : s.mRecordRunning = true
    <;> simp_all [previewThread]

/-- Claim C4: after a successful `startPreview`, a preview-loop iteration
with the stopped flag set emits nothing at all (no grab, no callback);
otherwise it delivers a preview-frame data callback iff the preview-frame
or video-frame event kind is enabled at that moment. -/
theorem previewThread_delivery (env : Env) (s : CamState) :
    (s.previewStopped = true → (previewThread env s).2 = []) ∧
    (s.previewStopped = false →
      ((∃ b, Action.cb (CallbackEvent.data CAMERA_MSG_PREVIEW_FRAME b) ∈
          (previewThread env s).2) ↔
        (msgTypeEnabled s CAMERA_MSG_PREVIEW_FRAME = true ∨
         msgTypeEnabled s CAMERA_MSG_VIDEO_FRAME = true))) := by
  constructor
  · intro h
    simp [previewThread, h]
  · exact previewThread_data_mem_iff env s

/-- Witness for claim C4: a stopped iteration emits nothing; a running
iteration with preview-frame events enabled delivers a preview frame. -/
theorem previewThread_delivery_witness :
    (previewThread envOK mkCameraHardware).2 = [] ∧
    (∃ b, Action.cb (CallbackEvent.data CAMERA_MSG_PREVIEW_FRAME b) ∈
      (previewThread envOK sPrev).2) :=
  ⟨(previewThread_delivery envOK mkCameraHardware).1 (by decide),
   ((previewThread_delivery envOK sPrev).2 (by decide)).mpr
     (Or.inl (by decide))⟩

/-- Claim C5: with the video-frame kind enabled, `startRecording` makes each
non-stopped iteration deliver a timestamped video-frame callback whose
buffer size is 3/4 of width*height*2, before that iteration's
preview-frame callback; with the kind disabled or recording inactive no
timestamped callback is emitted and preview-frame delivery is unchanged
(it still fires iff the preview-frame or video-frame kind is enabled).
The hypothesis `hfs` records that the preview frame size was set by a
successful `startPreview` at the current preview size. -/
theorem previewThread_video_recording (env : Env) (s : CamState)
    (hstop : s.previewStopped = false)
    (hfs : s.mPreviewFrameSize =
      s.mParameters.previewWidth * s.mParameters.previewHeight * 2) :
    (msgTypeEnabled s CAMERA_MSG_VIDEO_FRAME = true →
      (previewThread env (startRecording s).2).2 =
        [Action.dev DevCall.grabPreviewFrame,
         Action.convert s.mParameters.previewWidth s.mParameters.previewHeight,
         Action.cb (CallbackEvent.dataTimestamp env.now CAMERA_MSG_VIDEO_FRAME
           (s.mParameters.previewWidth * s.mParameters.previewHeight * 2 * 3 / 4)),
         Action.cb (CallbackEvent.data CAMERA_MSG_PREVIEW_FRAME
           (s.mBuffer.getD 0))]) ∧
    (∀ s2 : CamState,
      (msgTypeEnabled s2 CAMERA_MSG_VIDEO_FRAME = false ∨
        s2.mRecordRunning = false) →
      (∀ ts m b, Action.cb (CallbackEvent.dataTimestamp ts m b) ∉
        (previewThread env s2).2) ∧
      (s2.previewStopped = false →
        ((∃ b, Action.cb (CallbackEvent.data CAMERA_MSG_PREVIEW_FRAME b) ∈
            (previewThread env s2).2) ↔
          (msgTypeEnabled s2 CAMERA_MSG_PREVIEW_FRAME = true ∨
           msgTypeEnabled s2 CAMERA_MSG_VIDEO_FRAME = true)))) := by
  constructor
  · intro hv
    simp [previewThread, startRecording, msgTypeEnabled, hstop, hfs] at hv ⊢
    simp [hv, msgTypeEnabled]
  · intro s2 h2
    exact ⟨previewThread_no_video_event env s2 h2,
      previewThread_data_mem_iff env s2⟩

/-- Witness for claim C5: recording on the running controller with both
frame kinds enabled delivers the converted 115200-byte (= 3/4 of
320*240*2) video frame before the 153600-byte preview frame. -/
theorem previewThread_video_recording_witness :
    (previewThread envOK (startRecording sVid).2).2 =
      [Action.dev DevCall.grabPreviewFrame, Action.convert 320 240,
       Action.cb (CallbackEvent.dataTimestamp 777 CAMERA_MSG_VIDEO_FRAME 115200),
       Action.cb (CallbackEvent.data CAMERA_MSG_PREVIEW_FRAME 153600)] :=
  (previewThread_video_recording envOK sVid (by decide) (by decide)).1
    (by decide)

/-- Every action the probe loop records is an open attempt with exactly the
width, height and pixel format the probe was asked for. -/
theorem probeGo_actions (env : Env) (w h fmt : Nat) (l : List Nat) :
    ∀ a ∈ (probeGo env w h fmt l).2,
      ∃ n, a = Action.dev (DevCall.openDev n w h fmt) := by
  induction l with
  | nil =>
    intro a ha
    simp [probeGo] at ha
  | cons i rest ih =>
    intro a ha
    by_cases hO : 0 ≤ env.openRet (devnode i) w h fmt
    · simp [probeGo, hO] at ha
      exact ⟨devnode i, ha⟩
    · simp only [probeGo] at ha
      rw [if_neg hO] at ha
      rcases List.mem_cons.mp ha with h1 | h1
      · exact ⟨devnode i, h1⟩
      · exact ih a h1

/-- The probe trace contains no client callback. -/
theorem probe_no_cb (env : Env) (w h fmt : Nat) (e : CallbackEvent) :
    Action.cb e ∉ (probe env w h fmt).2 := by
  intro hmem
  rcases probeGo_actions env w h fmt (List.range 10) _ hmem with ⟨n, hn⟩
  simp at hn

/-- Any open attempt recorded by the probe uses the requested size. -/
theorem probe_open_args (env : Env) (w h fmt : Nat) (nd : String)
    (w2 h2 f2 : Nat)
    (hm : Action.dev (DevCall.openDev nd w2 h2 f2) ∈ (probe env w h fmt).2) :
    w2 = w ∧ h2 = h := by
  rcases probeGo_actions env w h fmt (List.range 10) _ hm with ⟨n, hn⟩
  simp only [Action.dev.injEq, DevCall.openDev.injEq] at hn
  exact ⟨hn.2.1, hn.2.2.1⟩

/-- Claim C3 counterexample: with preview size 320x240 and picture size
640x480 configured, the still-capture cycle's only open attempt is at
320x240 — the preview resolution — not at the 640x480 picture resolution
the claim requires (the picture-size read is immediately overwritten by
the preview-size read). -/
theorem pictureThread_resolution_cex :
    sBigPicture.mParameters.pictureWidth = 640 ∧
    sBigPicture.mParameters.pictureHeight = 480 ∧
    sBigPicture.mParameters.previewWidth = 320 ∧
    sBigPicture.mParameters.previewHeight = 240 ∧
    (pictureThread envOK sBigPicture).2.filter Action.isOpen =
      [Action.dev (DevCall.openDev "/dev/video0" 320 240 V4L2_PIX_FMT_YUYV)] ∧
    (320 : Nat) ≠ 640 := by
  refine ⟨by decide, by decide, by decide, by decide, by decide, by decide⟩

/-- Claim C3 (amended): when some device node opens, the still-capture
cycle succeeds; every open attempt it makes uses the preview resolution
(the picture-size read is overwritten by the preview-size read before the
probe); it emits a shutter notification iff that event kind is enabled and
a compressed-image data callback carrying the JPEG payload iff that kind
is enabled; and the trace ends with the device teardown. -/
theorem pictureThread_spec (env : Env) (s : CamState)
    (hopen : (probe env s.mParameters.previewWidth s.mParameters.previewHeight
        V4L2_PIX_FMT_YUYV).1.isSome = true) :
    (pictureThread env s).1 = NO_ERROR ∧
    (∀ nd w2 h2 f2,
      Action.dev (DevCall.openDev nd w2 h2 f2) ∈ (pictureThread env s).2 →
      w2 = s.mParameters.previewWidth ∧ h2 = s.mParameters.previewHeight) ∧
    ((Action.cb (CallbackEvent.notify CAMERA_MSG_SHUTTER 0 0) ∈
        (pictureThread env s).2) ↔
      msgTypeEnabled s CAMERA_MSG_SHUTTER = true) ∧
    ((Action.cb (CallbackEvent.data CAMERA_MSG_COMPRESSED_IMAGE env.jpegSize) ∈
        (pictureThread env s).2) ↔
      msgTypeEnabled s CAMERA_MSG_COMPRESSED_IMAGE = true) ∧
    (∃ pre, (pictureThread env s).2 =
      pre ++ [Action.dev DevCall.uninit, Action.dev DevCall.stopStreaming,
              Action.dev DevCall.closeDev]) := by
  rcases ho : (probe env s.mParameters.previewWidth s.mParameters.previewHeight
      V4L2_PIX_FMT_YUYV).1 with _ | n
  · rw [ho] at hopen
    simp at hopen
  · have htr : (pictureThread env s).2 =
        (if msgTypeEnabled s CAMERA_MSG_SHUTTER then
          [Action.cb (CallbackEvent.notify CAMERA_MSG_SHUTTER 0 0)] else []) ++
        (probe env s.mParameters.previewWidth s.mParameters.previewHeight
          V4L2_PIX_FMT_YUYV).2 ++
        [Action.dev DevCall.initDev, Action.dev DevCall.startStreaming] ++
        (if msgTypeEnabled s CAMERA_MSG_COMPRESSED_IMAGE then
          [Action.dev DevCall.grabJpegFrame,
           Action.cb (CallbackEvent.data CAMERA_MSG_COMPRESSED_IMAGE
             env.jpegSize)]
         else []) ++
        [Action.dev DevCall.uninit, Action.dev DevCall.stopStreaming,
         Action.dev DevCall.closeDev] := by
      simp [pictureThread, ho]
    have hstat : (pictureThread env s).1 = NO_ERROR := by
      simp [pictureThread, ho]
    have hopenArgs : ∀ nd w2 h2 f2,
        Action.dev (DevCall.openDev nd w2 h2 f2) ∈ (pictureThread env s).2 →
        w2 = s.mParameters.previewWidth ∧ h2 = s.mParameters.previewHeight := by
      intro nd w2 h2 f2 hm
      rw [htr] at hm
      simp only [List.mem_append] at hm
      rcases hm with ((((hm | hm) | hm) | hm) | hm)
      · by_cases hsh : msgTypeEnabled s CAMERA_MSG_SHUTTER = true
        · simp [hsh] at hm
        · simp [hsh] at hm
      · exact probe_open_args env _ _ _ nd w2 h2 f2 hm
      · simp at hm
      · by_cases hjp : msgTypeEnabled s CAMERA_MSG_COMPRESSED_IMAGE = true
        · simp [hjp] at hm
        · simp [hjp] at hm
      · simp at hm
    have hshutter : (Action.cb (CallbackEvent.notify CAMERA_MSG_SHUTTER 0 0) ∈
        (pictureThread env s).2) ↔
        msgTypeEnabled s CAMERA_MSG_SHUTTER = true := by
      rw [htr]
      by_cases hsh : msgTypeEnabled s CAMERA_MSG_SHUTTER = true <;>
        by_cases hjp : msgTypeEnabled s CAMERA_MSG_COMPRESSED_IMAGE = true <;>
        simp [hsh, hjp, probe_no_cb]
    have hjpeg : (Action.cb (CallbackEvent.data CAMERA_MSG_COMPRESSED_IMAGE
        env.jpegSize) ∈ (pictureThread env s).2) ↔
        msgTypeEnabled s CAMERA_MSG_COMPRESSED_IMAGE = true := by
      rw [htr]
      by_cases hsh : msgTypeEnabled s CAMERA_MSG_SHUTTER = true <;>
        by_cases hjp : msgTypeEnabled s CAMERA_MSG_COMPRESSED_IMAGE = true <;>
        simp [hsh, hjp, probe_no_cb]
    exact ⟨hstat, hopenArgs, hshutter, hjpeg, ⟨_, htr⟩⟩

/-- Witness for claim C3's amended theorem: the cycle on the 640x480-picture
controller (shutter enabled) succeeds and emits the shutter notification. -/
theorem pictureThread_spec_witness :
    (pictureThread envOK sBigPicture).1 = NO_ERROR ∧
    ((Action.cb (CallbackEvent.notify CAMERA_MSG_SHUTTER 0 0) ∈
        (pictureThread envOK sBigPicture).2) ↔
      msgTypeEnabled sBigPicture CAMERA_MSG_SHUTTER = true) :=
  ⟨(pictureThread_spec envOK sBigPicture (by decide)).1,
   (pictureThread_spec envOK sBigPicture (by decide)).2.2.1⟩

end CameraHW
